import Mathlib

/-!
Verification of the FindBookApp repository: a React book-search UI over the
Open Library search API, with a saved-books list mirrored to local storage.

The development shallowly embeds the two source variants:
  * `src/src/findBook/findBook.js` (extended variant: `BookFinder` component
    with `useLocalStorage`, `buildUrl`, `fetchBooks`, `toggleSave`,
    debounced search effect and pagination), and
  * `src/unnamed/part_000` (minimal variant: `searchBooks`).

React state is modelled as explicit records; the single `fetch` per call is
modelled by consuming the head of an oracle list of network outcomes; JS
platform functions used by the source (`String.prototype.trim`,
`JSON.stringify` / `JSON.parse`, `URLSearchParams`, `localStorage`) are
modelled as executable Lean functions with the same observable behaviour.
-/

namespace FindBookApp

/-- A result record as used by the component: the stable identifier `key`
and the publication year field consumed by the sort comparator
(`first_publish_year`, absent when the API omits it). -/
structure Book where
  key : String
  first_publish_year : Option Int
deriving DecidableEq, Repr

/-- Model of JS `String.prototype.trim`: drop whitespace from both ends. -/
def jsTrim (s : String) : String :=
  ⟨((s.data.dropWhile Char.isWhitespace).reverse.dropWhile Char.isWhitespace).reverse⟩

/-- `toggleSave` from `findBook.js` lines 142-149: remove every entry with
the same `key` if one exists, otherwise append the book at the end. -/
def toggleSave (book : Book) (prev : List Book) : List Book :=
  if prev.any (fun b => b.key == book.key) then
    prev.filter (fun b => b.key != book.key)
  else
    prev ++ [book]

/-- `isSaved` from `findBook.js` line 151. -/
def isSaved (saved : List Book) (book : Book) : Bool :=
  saved.any (fun b => b.key == book.key)

/-- JS `book.first_publish_year || 0` (missing year treated as 0). -/
def yearOrZero (b : Book) : Int :=
  b.first_publish_year.getD 0

/-- The in-memory sort applied by `fetchBooks` (lines 99-103): a stable
comparator sort on `first_publish_year || 0`, ascending for `year_asc`,
descending for `year_desc`, and the identity otherwise. -/
def sortDocs (sort : String) (docs : List Book) : List Book :=
  if sort = "year_asc" then
    docs.insertionSort (fun a b => yearOrZero a ≤ yearOrZero b)
  else if sort = "year_desc" then
    docs.insertionSort (fun a b => yearOrZero b ≤ yearOrZero a)
  else
    docs

/-- Model of `URLSearchParams.set`: replace the value of the first pair with
the given name (deleting any later duplicates), or append a new pair. -/
def setParam : List (String × String) → String → String → List (String × String)
  | [], k, v => [(k, v)]
  | p :: ps, k, v =>
    if p.1 = k then (k, v) :: ps.filter (fun q => q.1 ≠ k)
    else p :: setParam ps k v

/-- The fixed `fields` allow-list of `buildUrl` (lines 69-83). -/
def fieldsValue : String :=
  String.intercalate ","
    ["key", "title", "author_name", "cover_i", "first_publish_year",
     "ebook_access", "has_fulltext", "language", "edition_count", "subject"]

/-- The fixed external search endpoint of `buildUrl` (line 85). -/
def endpointUrl : String := "https://openlibrary.org/search.json"

/-- The UI state of the extended `BookFinder` component (lines 27-39). -/
structure AppState where
  query : String
  field : String
  ebookOnly : Bool
  lang : String
  sort : String
  books : List Book
  total : Nat
  page : Nat
  loading : Bool
  error : String
deriving Repr

/-- `buildUrl` (lines 47-86), as the ordered parameter list it places in the
query string: `page` first, then the query parameter chosen by `field`
(empty query falls back to `q=`), then the optional `has_fulltext` and
`language` filters, then the fixed `fields` allow-list. -/
def buildParams (st : AppState) : List (String × String) :=
  let params : List (String × String) := []
  let params := setParam params "page" (toString st.page)
  let q := jsTrim st.query
  let params :=
    if q = "" then setParam params "q" ""
    else if st.field = "title" then setParam params "title" q
    else if st.field = "author" then setParam params "author" q
    else if st.field = "subject" then setParam params "subject" q
    else if st.field = "isbn" then setParam params "isbn" q
    else setParam params "q" q
  let params := if st.ebookOnly then setParam params "has_fulltext" "true" else params
  let params := if st.lang ≠ "" then setParam params "language" st.lang else params
  setParam params "fields" fieldsValue

/-- `buildUrl` as the pair of the fixed endpoint and the structured
parameter list (the source serialises the latter with
`URLSearchParams.toString`). -/
def buildUrl (st : AppState) : String × List (String × String) :=
  (endpointUrl, buildParams st)

/-- The query parameter that carries the trimmed query for a given value of
the `field` control, per the branch structure of `buildUrl` lines 53-63. -/
def queryParamName (field : String) : String :=
  if field = "title" then "title"
  else if field = "author" then "author"
  else if field = "subject" then "subject"
  else if field = "isbn" then "isbn"
  else "q"

/-- A successfully delivered HTTP response, as consumed by `fetchBooks`:
`ok` is `res.ok`; `docs` is `data.docs` when it is an array and `none`
otherwise; `numFound` / `num_found` are the two count fields. -/
structure FetchResult where
  ok : Bool
  docs : Option (List Book)
  numFound : Option Nat
  num_found : Option Nat
deriving Repr

/-- JS `x || d` on an optional number: `d` when the field is absent or 0. -/
def orFalsy (x : Option Nat) (d : Nat) : Nat :=
  match x with
  | some n => if n = 0 then d else n
  | none => d

/-- The error banner text set on a failed fetch (line 109 and the minimal
variant line 23). -/
def netErrorMsg : String := "Network error. Please try again."

/-- One run of `fetchBooks` (lines 89-115) on a single network outcome.
`none` models the try-block throwing (the request rejects or the body fails
to parse); `some r` with `r.ok = false` throws `HTTP <status>` and lands in
the same catch. The catch sets the error banner and clears results and
total; the finally-block always resets `loading`. -/
def fetchBooksStep (st : AppState) (outcome : Option FetchResult) : AppState :=
  let st1 := { st with loading := true, error := "" }
  match outcome with
  | none =>
    { st1 with error := netErrorMsg, books := [], total := 0, loading := false }
  | some r =>
    if r.ok = false then
      { st1 with error := netErrorMsg, books := [], total := 0, loading := false }
    else
      let docs := sortDocs st.sort (r.docs.getD [])
      let st2 := { st1 with
        books := docs,
        total := orFalsy r.numFound (orFalsy r.num_found 0) }
      let st3 := if docs.length = 0 then { st2 with error := "No books found." } else st2
      { st3 with loading := false }

/-- `fetchBooks` against an oracle queue of pending network outcomes: the
single `fetch` call consumes exactly the head of the queue. -/
def fetchBooksWith (st : AppState) :
    List (Option FetchResult) → AppState × List (Option FetchResult)
  | [] => (st, [])
  | o :: rest => (fetchBooksStep st o, rest)

/-- The body of the debounced search effect (lines 118-132) once the 300 ms
timer fires: an empty trimmed query clears results, total, error and
loading without touching the network; otherwise `fetchBooks` runs. -/
def debounceTick (st : AppState) (oracle : List (Option FetchResult)) :
    AppState × List (Option FetchResult) :=
  if jsTrim st.query = "" then
    ({ st with books := [], total := 0, error := "", loading := false }, oracle)
  else
    fetchBooksWith st oracle

/-- The UI state of the minimal variant (`src/unnamed/part_000` lines 5-8). -/
structure MiniState where
  query : String
  books : List Book
  loading : Bool
  error : String
deriving Repr

/-- `searchBooks` of the minimal variant (lines 11-27) against an oracle
queue of network outcomes. An empty trimmed query returns before fetching,
so the queue is untouched; otherwise exactly the head outcome is consumed.
`none` models any throw inside the try-block (the fetch rejecting, the body
failing to parse, or `data.docs` being absent). -/
def searchBooks (st : MiniState) (oracle : List (Option (List Book))) :
    MiniState × List (Option (List Book)) :=
  if jsTrim st.query = "" then (st, oracle)
  else
    match oracle with
    | [] => (st, [])
    | o :: rest =>
      let st1 := { st with loading := true, error := "" }
      let st2 :=
        match o with
        | none => { st1 with error := netErrorMsg }
        | some docs =>
          if docs.length = 0 then { st1 with error := "No books found.", books := docs }
          else { st1 with books := docs }
      ({ st2 with loading := false }, rest)

/-- The browser local storage: an association list of string keys to string
values (`getItem` yields `none` for an absent key, like JS `null`). -/
def Storage : Type := List (String × String)

/-- `localStorage.getItem`. -/
def getItem (st : Storage) (k : String) : Option String :=
  match st with
  | [] => none
  | (k0, v0) :: rest => if k0 = k then some v0 else getItem rest k

/-- `localStorage.setItem`: overwrite in place or append. -/
def setItem (st : Storage) (k v : String) : Storage :=
  match st with
  | [] => [(k, v)]
  | (k0, v0) :: rest => if k0 = k then (k, v) :: rest else (k0, v0) :: setItem rest k v

/-- The storage key of the saved list (`findBook.js` line 42). -/
def savedKey : String := "bookfinder.saved"

/-- Decimal digits of a natural number, as characters. -/
def encNat (n : Nat) : List Char := Nat.toDigits 10 n

/-- Length-prefixed encoding of a string. -/
def encStr (s : String) : List Char :=
  encNat s.length ++ ':' :: s.data

/-- Encoding of the optional publication year. -/
def encYear : Option Int → List Char
  | none => ['n']
  | some y =>
    'i' :: (if y < 0 then '-' :: encNat y.natAbs else encNat y.natAbs) ++ [';']

/-- Encoding of one book record. -/
def encBook (b : Book) : List Char :=
  encStr b.key ++ encYear b.first_publish_year

/-- Model of `JSON.stringify` on a list of book records: an injective,
machine-parsable serialisation of the full list (count-prefixed,
length-prefixed strings), standing in for the JSON text. -/
def stringify (l : List Book) : String :=
  ⟨encNat l.length ++ ';' :: (l.map encBook).flatten⟩

/-- Greedily consume leading decimal digits. -/
def parseNatAux : List Char → Nat → Nat × List Char
  | [], acc => (acc, [])
  | c :: cs, acc =>
    if c.isDigit then parseNatAux cs (acc * 10 + (c.toNat - 48))
    else (acc, c :: cs)

/-- Parse a natural number; fails when no leading digit is present. -/
def parseNat (cs : List Char) : Option (Nat × List Char) :=
  match cs with
  | [] => none
  | c :: _ => if c.isDigit then some (parseNatAux cs 0) else none

/-- Parse a length-prefixed string. -/
def parseStr (cs : List Char) : Option (String × List Char) :=
  match parseNat cs with
  | none => none
  | some (n, rest) =>
    match rest with
    | ':' :: rest2 =>
      if n ≤ rest2.length then some (⟨rest2.take n⟩, rest2.drop n) else none
    | _ => none

/-- Parse the optional publication year. -/
def parseYear : List Char → Option (Option Int × List Char)
  | 'n' :: rest => some (none, rest)
  | 'i' :: rest =>
    let sr : Bool × List Char :=
      match rest with
      | '-' :: r => (true, r)
      | _ => (false, rest)
    (match parseNat sr.2 with
     | some (n, ';' :: rest3) =>
       some (some (if sr.1 then -(n : Int) else (n : Int)), rest3)
     | _ => none)
  | _ => none

/-- Parse one book record. -/
def parseBook (cs : List Char) : Option (Book × List Char) :=
  match parseStr cs with
  | none => none
  | some (k, rest) =>
    match parseYear rest with
    | none => none
    | some (y, rest2) => some ({ key := k, first_publish_year := y }, rest2)

/-- Parse exactly `n` book records. -/
def parseBooksAux : Nat → List Char → Option (List Book × List Char)
  | 0, cs => some ([], cs)
  | n + 1, cs =>
    match parseBook cs with
    | none => none
    | some (b, rest) =>
      match parseBooksAux n rest with
      | none => none
      | some (bs, rest2) => some (b :: bs, rest2)

/-- Model of `JSON.parse` on the stored text, partial like the original:
`none` models the parse throwing on text that is not a valid serialised
saved list. -/
def parseSaved (raw : String) : Option (List Book) :=
  match parseNat raw.data with
  | some (n, ';' :: rest) =>
    (match parseBooksAux n rest with
     | some (bs, []) => some bs
     | _ => none)
  | _ => none

/-- The lazy initialiser of `useLocalStorage` (lines 9-16): read the cell,
return the parsed value when the raw text is truthy and parses, and the
initial value when the cell is absent, empty, or fails to parse (the
try/catch swallows the throw). -/
def hydrate (raw : Option String) (initialValue : List Book) : List Book :=
  match raw with
  | none => initialValue
  | some r =>
    if r = "" then initialValue
    else
      match parseSaved r with
      | some v => v
      | none => initialValue

/-- The saved-list hook state: the in-memory list plus the browser storage
it is mirrored to. -/
structure SavedStore where
  saved : List Book
  storage : Storage

/-- The write-back effect of `useLocalStorage` (lines 17-21): serialise the
current value into the cell; `writeOk = false` models `setItem` throwing,
which the empty catch swallows, leaving the storage unchanged. -/
def mirrorSaved (writeOk : Bool) (s : SavedStore) : SavedStore :=
  if writeOk then
    { s with storage := setItem s.storage savedKey (stringify s.saved) }
  else s

/-- One saved-list mutation: `toggleSave` followed by the mirroring effect
that `useLocalStorage` runs on the new value. -/
def toggleAndMirror (writeOk : Bool) (b : Book) (s : SavedStore) : SavedStore :=
  mirrorSaved writeOk { s with saved := toggleSave b s.saved }

/-- Component-load hydration of the saved list (line 42: initial value `[]`
under the key `bookfinder.saved`). -/
def loadSaved (storage : Storage) : List Book :=
  hydrate (getItem storage savedKey) []

/-- `pageSize` (line 44). -/
def pageSize : Nat := 20

/-- `totalPages` (line 140): `Math.max(1, Math.ceil(total / pageSize))`. -/
def totalPages (total : Nat) : Nat :=
  max 1 ((total + pageSize - 1) / pageSize)

/-- The Prev button handler (line 242): `Math.max(1, p - 1)`. -/
def prevPage (p : Nat) : Nat := max 1 (p - 1)

/-- The Next button handler (line 250): `Math.min(totalPages, p + 1)`. -/
def nextPage (total p : Nat) : Nat := min (totalPages total) (p + 1)

/-- A concrete result record used by the concrete instances below. -/
def bookA : Book := { key := "/works/OL1W", first_publish_year := some 1937 }

/-- A second concrete result record, with no publication year. -/
def bookB : Book := { key := "/works/OL2W", first_publish_year := none }

/-- A third concrete result record, with a distinct key. -/
def bookC : Book := { key := "/works/OL3W", first_publish_year := some 1954 }

/-! ### Helper lemmas about `toggleSave` -/

theorem toggleSave_of_mem (book : Book) (prev : List Book)
    (h : ∃ b ∈ prev, b.key = book.key) :
    toggleSave book prev = prev.filter (fun b => b.key != book.key) := by
  unfold toggleSave
  rw [if_pos]
  rw [List.any_eq_true]
  obtain ⟨b, hb, hk⟩ := h
  exact ⟨b, hb, by simpa using hk⟩

theorem toggleSave_of_not_mem (book : Book) (prev : List Book)
    (h : ∀ b ∈ prev, b.key ≠ book.key) :
    toggleSave book prev = prev ++ [book] := by
  unfold toggleSave
  rw [if_neg]
  intro hc
  rw [List.any_eq_true] at hc
  obtain ⟨b, hb, hk⟩ := hc
  exact h b hb (by simpa using hk)

theorem filter_key_eq_self {book : Book} {l : List Book}
    (h : ∀ b ∈ l, b.key ≠ book.key) :
    l.filter (fun b => b.key != book.key) = l := by
  rw [List.filter_eq_self]
  intro b hb
  simpa using h b hb

theorem mem_filter_key_ne (book : Book) (l : List Book) :
    ∀ x ∈ l.filter (fun b => b.key != book.key), x.key ≠ book.key := by
  intro x hx
  have := (List.mem_filter.mp hx).2
  simpa using this

/-- C1: for every saved list and book record, `toggleSave book` removes
every entry whose key equals `book.key` when at least one such entry
exists, otherwise appends `book` at the end; in both cases the relative
order of all other entries (those whose key differs from `book.key`) is
preserved. -/
theorem toggleSave_correct (book : Book) (prev : List Book) :
    ((∃ b ∈ prev, b.key = book.key) →
        toggleSave book prev = prev.filter (fun b => b.key != book.key)) ∧
    ((∀ b ∈ prev, b.key ≠ book.key) → toggleSave book prev = prev ++ [book]) ∧
    List.Sublist (prev.filter (fun b => b.key != book.key)) (toggleSave book prev) := by
  refine ⟨toggleSave_of_mem book prev, toggleSave_of_not_mem book prev, ?_⟩
  by_cases h : ∃ b ∈ prev, b.key = book.key
  · rw [toggleSave_of_mem book prev h]
  · push_neg at h
    rw [toggleSave_of_not_mem book prev h, filter_key_eq_self h]
    exact List.sublist_append_left prev [book]

/-- Closed instance of `toggleSave_correct`: removal of the sole matching
entry from a concrete two-element list. -/
theorem toggleSave_correct_witness :
    toggleSave bookA [bookA, bookB] = [bookB] :=
  ((toggleSave_correct bookA [bookA, bookB]).1 ⟨bookA, by decide, rfl⟩).trans (by decide)

/-- C7: over lists whose entries carry pairwise distinct keys, toggling
twice with a book whose key is absent restores the original list; toggling
twice with a book `b` that is an entry of the list yields the list with
the entry of key `b.key` moved to the end, which equals the original list
exactly when that entry was already last. -/
theorem toggleSave_double_toggle (b : Book) (l : List Book)
    (hnd : (l.map Book.key).Nodup) :
    ((∀ x ∈ l, x.key ≠ b.key) → toggleSave b (toggleSave b l) = l) ∧
    (b ∈ l →
      toggleSave b (toggleSave b l) = l.filter (fun x => x.key != b.key) ++ [b] ∧
      (toggleSave b (toggleSave b l) = l ↔ l.getLast? = some b)) := by
  constructor
  · intro hx
    rw [toggleSave_of_not_mem b l hx]
    rw [toggleSave_of_mem b (l ++ [b]) ⟨b, List.mem_append_right l (by simp), rfl⟩]
    rw [List.filter_append, filter_key_eq_self hx]
    simp
  · intro hb
    have h1 : toggleSave b l = l.filter (fun x => x.key != b.key) :=
      toggleSave_of_mem b l ⟨b, hb, rfl⟩
    have h2 : toggleSave b (toggleSave b l) = l.filter (fun x => x.key != b.key) ++ [b] := by
      rw [h1, toggleSave_of_not_mem b _ (mem_filter_key_ne b l)]
    refine ⟨h2, ?_⟩
    constructor
    · intro he
      rw [h2] at he
      rw [← he, List.getLast?_concat]
    · intro hlast
      have hne : l ≠ [] := by
        intro hnil
        rw [hnil] at hlast
        simp at hlast
      have hglast : l.getLast hne = b := by
        have := List.getLast?_eq_getLast l hne
        rw [hlast] at this
        exact (Option.some_injective _ this).symm
      have hsplit : l.dropLast ++ [b] = l := by
        rw [← hglast]
        exact List.dropLast_append_getLast hne
      have hdk : ∀ x ∈ l.dropLast, x.key ≠ b.key := by
        have hnd2 : ((l.dropLast ++ [b]).map Book.key).Nodup := by
          rw [hsplit]; exact hnd
        rw [List.map_append] at hnd2
        have := (List.pairwise_append.mp hnd2).2.2
        intro x hx
        exact this x.key (List.mem_map_of_mem Book.key hx) b.key (by simp)
      rw [h2, ← hsplit, List.filter_append, filter_key_eq_self hdk]
      simp

/-- Closed instance of `toggleSave_double_toggle`: a double toggle of a
non-member on a concrete key-distinct list is the identity. -/
theorem toggleSave_double_toggle_witness :
    toggleSave bookC (toggleSave bookC [bookA, bookB]) = [bookA, bookB] :=
  (toggleSave_double_toggle bookC [bookA, bookB] (by decide)).1 (by decide)

/-- Looking up the key just written by `setItem` yields the written value. -/
theorem getItem_setItem (st : Storage) (k v : String) :
    getItem (setItem st k v) k = some v := by
  induction st with
  | nil => simp [setItem, getItem]
  | cons p rest ih =>
    obtain ⟨k0, v0⟩ := p
    by_cases h : k0 = k
    · simp [setItem, getItem, h]
    · simp [setItem, getItem, h, ih]

/-- The empty text never parses (JS `JSON.parse("")` throws). -/
theorem parseSaved_empty : parseSaved "" = none := rfl

/-- C2: after every mutation of the saved list through `toggleSave`, the
storage cell under `bookfinder.saved` holds exactly the serialisation of
the new in-memory saved list; and on component load, when the cell holds a
text that parses to a list, the saved list hydrates to that list. -/
theorem saved_list_mirrored (b : Book) (s : SavedStore) (storage : Storage)
    (raw : String) (l : List Book)
    (hraw : getItem storage savedKey = some raw)
    (hparse : parseSaved raw = some l) :
    getItem (toggleAndMirror true b s).storage savedKey =
      some (stringify (toggleAndMirror true b s).saved) ∧
    loadSaved storage = l := by
  constructor
  · show getItem (setItem s.storage savedKey (stringify (toggleSave b s.saved)))
      savedKey = some (stringify (toggleSave b s.saved))
    exact getItem_setItem s.storage savedKey (stringify (toggleSave b s.saved))
  · unfold loadSaved
    rw [hraw]
    have hre : raw ≠ "" := by
      intro h0
      rw [h0, parseSaved_empty] at hparse
      exact Option.noConfusion hparse
    show (if raw = "" then [] else
      match parseSaved raw with
      | some v => v
      | none => []) = l
    rw [if_neg hre, hparse]

/-- A concrete storage holding the serialised one-element saved list. -/
def demoStorage : Storage := [(savedKey, stringify [bookA])]

/-- A concrete saved-list hook state over an empty storage. -/
def emptyStore : SavedStore := { saved := [], storage := [] }

/-- Closed instance of `saved_list_mirrored`: a concrete toggle mirrors to
the cell, and a concrete populated cell hydrates back. -/
theorem saved_list_mirrored_witness :
    getItem (toggleAndMirror true bookB emptyStore).storage savedKey =
      some (stringify (toggleAndMirror true bookB emptyStore).saved) ∧
    loadSaved demoStorage = [bookA] :=
  saved_list_mirrored bookB emptyStore demoStorage (stringify [bookA]) [bookA]
    (by decide) (by decide)

/-- C8: hydration falls back to the empty initial list when the cell is
absent and when its content fails to parse; and when writing to storage
throws, the in-memory saved list still reflects the `toggleSave` mutation
while the storage is left as it was. -/
theorem useLocalStorage_resilient (raw : String) (b : Book) (s : SavedStore)
    (hbad : parseSaved raw = none) :
    hydrate none [] = [] ∧
    hydrate (some raw) [] = [] ∧
    (toggleAndMirror false b s).saved = toggleSave b s.saved ∧
    (toggleAndMirror false b s).storage = s.storage := by
  refine ⟨rfl, ?_, rfl, rfl⟩
  show (if raw = "" then [] else
    match parseSaved raw with
    | some v => v
    | none => []) = []
  by_cases h : raw = ""
  · rw [if_pos h]
  · rw [if_neg h, hbad]

/-- Closed instance of `useLocalStorage_resilient`: junk text hydrates to
the empty list and a failed write leaves a concrete mutation in memory. -/
theorem useLocalStorage_resilient_witness :
    hydrate (some "not json") [] = [] ∧
    (toggleAndMirror false bookA emptyStore).saved = [bookA] :=
  ⟨(useLocalStorage_resilient "not json" bookA emptyStore (by decide)).2.1,
   ((useLocalStorage_resilient "not json" bookA emptyStore (by decide)).2.2.1).trans
     (by decide)⟩

/-- Normal form of the parameter list built by `buildUrl`: the chain of
`URLSearchParams.set` calls on pairwise distinct names is a plain ordered
list of the parameters that were set. -/
theorem buildParams_eq (st : AppState) :
    buildParams st =
      [("page", toString st.page)] ++
      (if jsTrim st.query = "" then [("q", "")]
       else [(queryParamName st.field, jsTrim st.query)]) ++
      (if st.ebookOnly then [("has_fulltext", "true")] else []) ++
      (if st.lang ≠ "" then [("language", st.lang)] else []) ++
      [("fields", fieldsValue)] := by
  simp only [buildParams, queryParamName]
  split_ifs <;> simp [setParam]

/-- C3: for every state whose trimmed query is non-empty, `buildUrl`
targets the fixed endpoint and carries the trimmed query in exactly the
parameter selected by the field control (`title`, `author`, `subject` or
`isbn` for those field values, and `q` for `all` or anything else): that
parameter holds the trimmed query and none of the other four candidate
query parameters occurs at all. -/
theorem buildUrl_query_param (st : AppState) (h : jsTrim st.query ≠ "") :
    (buildUrl st).1 = "https://openlibrary.org/search.json" ∧
    (buildParams st).lookup (queryParamName st.field) = some (jsTrim st.query) ∧
    (∀ k ∈ (["q", "title", "author", "subject", "isbn"] : List String),
      k ≠ queryParamName st.field → (buildParams st).lookup k = none) := by
  refine ⟨rfl, ?_, ?_⟩ <;>
  · rw [buildParams_eq st]
    simp only [queryParamName]
    by_cases h1 : st.field = "title" <;> by_cases h2 : st.field = "author" <;>
      by_cases h3 : st.field = "subject" <;> by_cases h4 : st.field = "isbn" <;>
      by_cases h5 : st.ebookOnly = true <;> by_cases h6 : st.lang = "" <;>
      simp_all [List.lookup]

/-- A concrete search state: `author` field selected, query needing a trim. -/
def demoState : AppState :=
  { query := " Tolkien ", field := "author", ebookOnly := false, lang := "",
    sort := "relevance", books := [], total := 0, page := 1,
    loading := false, error := "" }

/-- Closed instance of `buildUrl_query_param`: submitting `Tolkien` with
`field = author` issues a request carrying `author=Tolkien` and no `q`. -/
theorem buildUrl_query_param_witness :
    (buildParams demoState).lookup "author" = some "Tolkien" ∧
    (buildParams demoState).lookup "q" = none :=
  ⟨((buildUrl_query_param demoState (by decide)).2.1).trans (by decide),
   (buildUrl_query_param demoState (by decide)).2.2 "q" (by decide) (by decide)⟩

/-- The fixed allow-list, rendered. -/
theorem fieldsValue_eq :
    fieldsValue = "key,title,author_name,cover_i,first_publish_year,ebook_access,has_fulltext,language,edition_count,subject" := by
  decide

/-- C4: for every combination of the five controls, the built parameter
list carries `has_fulltext=true` exactly when the ebook-only flag is set,
`language=<code>` exactly when the language code is non-empty, always the
current page number under `page`, and always the fixed `fields`
allow-list. -/
theorem buildUrl_filters (st : AppState) :
    ((buildParams st).lookup "has_fulltext" =
      if st.ebookOnly then some "true" else none) ∧
    ((buildParams st).lookup "language" =
      if st.lang ≠ "" then some st.lang else none) ∧
    (buildParams st).lookup "page" = some (toString st.page) ∧
    (buildParams st).lookup "fields" =
      some "key,title,author_name,cover_i,first_publish_year,ebook_access,has_fulltext,language,edition_count,subject" := by
  refine ⟨?_, ?_, ?_, ?_⟩ <;>
  · rw [buildParams_eq st]
    simp only [queryParamName, fieldsValue_eq]
    by_cases h0 : jsTrim st.query = "" <;>
      by_cases h1 : st.field = "title" <;> by_cases h2 : st.field = "author" <;>
      by_cases h3 : st.field = "subject" <;> by_cases h4 : st.field = "isbn" <;>
      by_cases h5 : st.ebookOnly = true <;> by_cases h6 : st.lang = "" <;>
      simp_all [List.lookup]

instance : IsTotal Book (fun a b => yearOrZero a ≤ yearOrZero b) :=
  ⟨fun a b => Int.le_total (yearOrZero a) (yearOrZero b)⟩

instance : IsTrans Book (fun a b => yearOrZero a ≤ yearOrZero b) :=
  ⟨fun _ _ _ h1 h2 => le_trans h1 h2⟩

instance : IsTotal Book (fun a b => yearOrZero b ≤ yearOrZero a) :=
  ⟨fun a b => Int.le_total (yearOrZero b) (yearOrZero a)⟩

instance : IsTrans Book (fun a b => yearOrZero b ≤ yearOrZero a) :=
  ⟨fun _ _ _ h1 h2 => le_trans h2 h1⟩

/-- C5: on a successful fetch the results state is the fetched records run
through the in-memory sort: a permutation ordered by non-decreasing
`first_publish_year || 0` for `year_asc`, by non-increasing year for
`year_desc`, and the records unchanged in their original order for
`relevance`. -/
theorem fetch_sort_results (st : AppState) (r : FetchResult) (hok : r.ok = true) :
    (fetchBooksStep st (some r)).books = sortDocs st.sort (r.docs.getD []) ∧
    (st.sort = "year_asc" →
      (sortDocs st.sort (r.docs.getD [])).Perm (r.docs.getD []) ∧
      (sortDocs st.sort (r.docs.getD [])).Sorted
        (fun a b => yearOrZero a ≤ yearOrZero b)) ∧
    (st.sort = "year_desc" →
      (sortDocs st.sort (r.docs.getD [])).Perm (r.docs.getD []) ∧
      (sortDocs st.sort (r.docs.getD [])).Sorted
        (fun a b => yearOrZero b ≤ yearOrZero a)) ∧
    (st.sort = "relevance" → sortDocs st.sort (r.docs.getD []) = r.docs.getD []) := by
  refine ⟨?_, ?_, ?_, ?_⟩
  · simp only [fetchBooksStep, hok]
    rw [if_neg (by simp)]
    split_ifs <;> rfl
  · intro hs
    rw [hs]
    simp [sortDocs]
    exact ⟨List.perm_insertionSort _ _, List.sorted_insertionSort _ _⟩
  · intro hs
    rw [hs]
    simp [sortDocs]
    exact ⟨List.perm_insertionSort _ _, List.sorted_insertionSort _ _⟩
  · intro hs
    rw [hs]
    simp [sortDocs]

/-- A concrete successful response with two result records. -/
def demoResult : FetchResult :=
  { ok := true, docs := some [bookA, bookC], numFound := some 2, num_found := none }

/-- Closed instance of `fetch_sort_results`: under `relevance` the fetched
records land in the results state unchanged. -/
theorem fetch_sort_results_witness :
    (fetchBooksStep demoState (some demoResult)).books = [bookA, bookC] :=
  (fetch_sort_results demoState demoResult rfl).1.trans
    ((fetch_sort_results demoState demoResult rfl).2.2.2 rfl)

/-- C6: a failing fetch (the request throwing, or — extended variant — a
response with `ok = false`) consumes exactly one outcome from the network
oracle (no retry), sets the error message to the fixed network-error text,
clears the results and total in the extended variant, and resets the
loading flag; the minimal variant likewise makes one attempt, sets the
same message and resets loading. -/
theorem fetch_failure_single_attempt (st : AppState) (o : Option FetchResult)
    (rest : List (Option FetchResult)) (ms : MiniState)
    (mrest : List (Option (List Book)))
    (hfail : o = none ∨ ∃ r, o = some r ∧ r.ok = false)
    (hq : jsTrim ms.query ≠ "") :
    (fetchBooksWith st (o :: rest)).2 = rest ∧
    (fetchBooksWith st (o :: rest)).1.error = "Network error. Please try again." ∧
    (fetchBooksWith st (o :: rest)).1.books = [] ∧
    (fetchBooksWith st (o :: rest)).1.total = 0 ∧
    (fetchBooksWith st (o :: rest)).1.loading = false ∧
    (searchBooks ms (none :: mrest)).2 = mrest ∧
    (searchBooks ms (none :: mrest)).1.error = "Network error. Please try again." ∧
    (searchBooks ms (none :: mrest)).1.loading = false := by
  have hfb : fetchBooksStep st o =
      { st with loading := false, error := netErrorMsg, books := [], total := 0 } := by
    rcases hfail with h | ⟨r, ho, hok⟩
    · subst h
      rfl
    · subst ho
      simp only [fetchBooksStep, hok]
      simp
  have hsb : searchBooks ms (none :: mrest) =
      ({ ms with loading := false, error := netErrorMsg }, mrest) := by
    unfold searchBooks
    rw [if_neg hq]
  exact ⟨rfl,
    by show (fetchBooksStep st o).error = _; rw [hfb]; rfl,
    by show (fetchBooksStep st o).books = _; rw [hfb],
    by show (fetchBooksStep st o).total = _; rw [hfb],
    by show (fetchBooksStep st o).loading = _; rw [hfb],
    by rw [hsb], by rw [hsb]; rfl, by rw [hsb]⟩

/-- A concrete non-ok HTTP response. -/
def failedResult : FetchResult :=
  { ok := false, docs := none, numFound := none, num_found := none }

/-- A concrete minimal-variant state with a non-empty query. -/
def demoMini : MiniState :=
  { query := "Tolkien", books := [bookA], loading := false, error := "" }

/-- Closed instance of `fetch_failure_single_attempt`: a concrete non-ok
response consumes one oracle entry and sets the error banner in both
variants. -/
theorem fetch_failure_single_attempt_witness :
    (fetchBooksWith demoState [some failedResult]).1.error =
      "Network error. Please try again." ∧
    (searchBooks demoMini [none]).1.error =
      "Network error. Please try again." :=
  ⟨(fetch_failure_single_attempt demoState (some failedResult) [] demoMini []
      (Or.inr ⟨failedResult, rfl, rfl⟩) (by decide)).2.1,
   (fetch_failure_single_attempt demoState (some failedResult) [] demoMini []
      (Or.inr ⟨failedResult, rfl, rfl⟩) (by decide)).2.2.2.2.2.2.1⟩

/-- C9: when the debounced effect fires with an empty trimmed query it
touches no network oracle entry and resets results, total, error and
loading. -/
theorem debounce_empty_query (st : AppState)
    (oracle : List (Option FetchResult)) (h : jsTrim st.query = "") :
    debounceTick st oracle =
      ({ st with books := [], total := 0, error := "", loading := false }, oracle) := by
  unfold debounceTick
  rw [if_pos h]

/-- A concrete state whose query is whitespace only. -/
def blankState : AppState := { demoState with query := "   " }

/-- Closed instance of `debounce_empty_query` at a whitespace-only query. -/
theorem debounce_empty_query_witness :
    debounceTick blankState [] =
      ({ blankState with books := [], total := 0, error := "", loading := false }, []) :=
  debounce_empty_query blankState [] (by decide)

/-- C10: `totalPages` is `max 1` of the ceiling of `total / 20` (the two
inequality conjuncts pin the ceiling), and from any page `p ≥ 1` the Prev
handler yields `max 1 (p - 1)` and the Next handler `min totalPages
(p + 1)`, so the page stays at least 1, Prev never increases the page, and
Next never passes `totalPages`. -/
theorem pagination_in_bounds (total p : Nat) (hp : 1 ≤ p) :
    totalPages total = max 1 ((total + pageSize - 1) / pageSize) ∧
    total ≤ totalPages total * pageSize ∧
    (1 < totalPages total → (totalPages total - 1) * pageSize < total) ∧
    prevPage p = max 1 (p - 1) ∧
    nextPage total p = min (totalPages total) (p + 1) ∧
    1 ≤ prevPage p ∧ prevPage p ≤ p ∧
    1 ≤ nextPage total p ∧ nextPage total p ≤ totalPages total := by
  simp only [totalPages, prevPage, nextPage, pageSize]
  refine ⟨trivial, ?_, ?_, trivial, trivial, ?_, ?_, ?_, ?_⟩ <;>
    (simp only [Nat.max_def, Nat.min_def]; split_ifs <;> omega)

/-- Closed instance of `pagination_in_bounds`: with no results Prev and
Next keep the page pinned at 1. -/
theorem pagination_in_bounds_witness :
    1 ≤ prevPage 1 ∧ nextPage 0 1 ≤ totalPages 0 :=
  ⟨(pagination_in_bounds 0 1 (by decide)).2.2.2.2.2.1,
   (pagination_in_bounds 0 1 (by decide)).2.2.2.2.2.2.2.2⟩
